import Mathlib

/-!
Shallow embedding of the DataFusion SQL parser extension
(`src/datafusion/sql/src/parser.rs`): the `Statement`/`StatementMeta` data
model, the qualified-name helpers (`with_meta`, `with_meta_for_object_name`,
`qualify_name`, `qualify_object_name`), the string path helpers
(`basename`, `strip_extension`), the `USE` catalog resolver (`parse_use`,
lines 560-671) modelled as a state transformer over the process-wide
resolution registries, the `CREATE EXTERNAL TABLE` clause tail
(location check, registry insert and value construction, lines 1115-1150),
the delimiter clause (lines 1091-1095 and 1214-1222) and the error
propagation of `parse_sql_file` / `parse_sql_with_dialect_and_scope`
(lines 529-558 and 448-480).

Filesystem access (`Path::is_file`, workspace discovery, `canonicalize`,
`exists`) is abstracted as a record of oracles (`FileSystem`); everything the
parser computes from those oracle answers is translated from the source.
The process-wide `lazy_static` mutex-guarded registries are modelled by
explicit state passing: parsing is single-threaded recursive descent, so the
sequence of `parse_use` invocations in one process is a linear trace of
registry updates.
-/

/-- Scope threaded through a parser instance: the `catalog`, `schema`,
`table` and `filename` fields of `DFParser`. -/
structure Scope where
  catalog : String
  schema : String
  table : String
  filename : String
deriving DecidableEq, Repr

/-- StatementMeta record (source lines 289-296): location at which a
statement is defined.  `new_with_table` always sets `line_number := 0`. -/
structure StatementMeta where
  catalog : String
  schema : String
  table : String
  line_number : Int
  filename : String
deriving DecidableEq, Repr

/-- Constant `DEFAULT_CATALOG` of the source (line 65). -/
def DEFAULT_CATALOG : String := "sdf"

/-- Constant `DEFAULT_SCHEMA` of the source (line 66). -/
def DEFAULT_SCHEMA : String := "public"

/-- Helper of `splitDot`: splits a character list at each '.', keeping
empty segments, exactly like Rust's `str::split('.')`. -/
def splitDotAux : List Char → List Char → List String
  | [], acc => [String.mk acc.reverse]
  | c :: cs, acc =>
      if c = '.' then String.mk acc.reverse :: splitDotAux cs []
      else splitDotAux cs (c :: acc)

/-- Model of Rust `table.split(".")` used by `with_meta` (line 905):
always yields at least one segment (an empty string splits to `[""]`). -/
def splitDot (s : String) : List String := splitDotAux s.toList []

/-- Model of `DFParser::with_meta` (lines 897-936): splits the table string
on '.' and builds a `StatementMeta`, defaulting catalog and schema to the
process constants `DEFAULT_CATALOG` / `DEFAULT_SCHEMA` (not the scope's).
`none` models the `todo!` panic hit for four or more name parts. -/
def with_meta (scope : Scope) (table : String) : Option StatementMeta :=
  match splitDot table with
  | [] =>
      some { catalog := DEFAULT_CATALOG, schema := DEFAULT_SCHEMA,
             table := "N.N", line_number := 0, filename := scope.filename }
  | [a] =>
      some { catalog := DEFAULT_CATALOG, schema := DEFAULT_SCHEMA,
             table := a, line_number := 0, filename := scope.filename }
  | [a, b] =>
      some { catalog := DEFAULT_CATALOG, schema := a,
             table := b, line_number := 0, filename := scope.filename }
  | [a, b, c] =>
      some { catalog := a, schema := b,
             table := c, line_number := 0, filename := scope.filename }
  | _ => none

/-- Model of `DFParser::with_meta_for_object_name` (lines 938-970); the
`ObjectName` is its list of identifier values.  `none` models the `todo!`
panic for four or more parts. -/
def with_meta_for_object_name (scope : Scope) (name : List String) :
    Option StatementMeta :=
  match name with
  | [] =>
      some { catalog := DEFAULT_CATALOG, schema := DEFAULT_SCHEMA,
             table := "N.N", line_number := 0, filename := scope.filename }
  | [a] =>
      some { catalog := DEFAULT_CATALOG, schema := DEFAULT_SCHEMA,
             table := a, line_number := 0, filename := scope.filename }
  | [a, b] =>
      some { catalog := DEFAULT_CATALOG, schema := a,
             table := b, line_number := 0, filename := scope.filename }
  | [a, b, c] =>
      some { catalog := a, schema := b,
             table := c, line_number := 0, filename := scope.filename }
  | _ => none

/-- Model of `basename` (lines 78-83): the substring after the last '/',
or the whole string when there is no '/'. -/
def basename (path : String) : String :=
  String.mk ((path.toList.reverse.takeWhile (fun c => !(c == '/'))).reverse)

/-- Model of `strip_extension` (lines 99-104), i.e. Rust's
`str::strip_suffix` falling back to the unchanged string. -/
def strip_extension (path ext : String) : String :=
  if ext.toList.isSuffixOf path.toList then
    String.mk (path.toList.take (path.toList.length - ext.toList.length))
  else path

/-- Model of `qualify_name` (lines 1231-1243): the commented-out
qualification is dead code, the live body returns the name unchanged. -/
def qualify_name (_catalog _schema : String) (name : String) : String :=
  name

/-- Model of `qualify_object_name` (lines 1246-1265): identity on the
object name (list of identifier values). -/
def qualify_object_name (_catalog _schema : String) (name : List String) :
    List String :=
  name

/-- The slice of the statement AST relevant to the SELECT/WITH/VALUES
branch of `parse_statement` (lines 689-751): either a plain query
statement or a standard `CREATE TABLE ... AS <query>` with a three-part
object name.  The query body is opaque, carried as a string. -/
inductive QueryStatement where
  | query (q : String)
  | createTable (name : List String) (q : String)
deriving DecidableEq, Repr

/-- Model of the `Keyword::SELECT | WITH | VALUES` branch of
`DFParser::parse_statement` (lines 689-751): when the scope has a
non-empty filename the parsed query is wrapped into a `CreateTable`
statement named `(catalog, schema, basename of the file without ".sql")`,
otherwise it stays a plain query statement. -/
def parse_query_statement (scope : Scope) (q : String) : QueryStatement :=
  if scope.filename ≠ "" then
    QueryStatement.createTable
      [scope.catalog, scope.schema,
       strip_extension (basename scope.filename) ".sql"] q
  else
    QueryStatement.query q

/-- Process-wide resolution registries (lines 48-57): `VISITED_FILES`,
`VISITED_CATALOGS`, `VISITED_SCHEMAS` and `LOCATIONS`, each a mutex-guarded
`HashSet<String>` modelled as a duplicate-free-by-construction list. -/
structure Registries where
  visitedFiles : List String
  visitedCatalogs : List String
  visitedSchemas : List String
  locations : List String
deriving DecidableEq, Repr

/-- Registries at process start: all four sets empty. -/
def emptyRegs : Registries :=
  { visitedFiles := [], visitedCatalogs := [], visitedSchemas := [],
    locations := [] }

/-- Set-semantics insertion into a registry list, modelling
`HashSet::insert`: a present element leaves the set unchanged. -/
def setInsert (l : List String) (x : String) : List String :=
  if x ∈ l then l else x :: l

/-- Abstraction of the ambient filesystem consulted by the parser:
`isFile` models `Path::is_file`, `findWorkspaceDir` models
`find_workspace_dir` (the walk up to `workspace.yml`), `isAbsolute` models
`Path::is_absolute`, `canonicalize` models `Path::canonicalize` (failing
with `none`), `pathExists` models `Path::exists`. -/
structure FileSystem where
  isFile : String → Bool
  findWorkspaceDir : String → Option String
  isAbsolute : String → Bool
  canonicalize : String → Option String
  pathExists : String → Bool

/-- Model of `get_full_path` (lines 172-187): canonicalize an absolute
input directly, otherwise canonicalize it joined under the workspace
directory. -/
def get_full_path (fs : FileSystem) (ws_dir input : String) : Option String :=
  if fs.isAbsolute input then fs.canonicalize input
  else fs.canonicalize (ws_dir ++ "/" ++ input)

/-- Model of `exists_full_path` (lines 189-199): resolve the workspace
root from the start path, resolve the input against it, and test
existence; any resolution failure yields `false`. -/
def exists_full_path (fs : FileSystem) (path start_path : String) : Bool :=
  match fs.findWorkspaceDir start_path with
  | some ws_dir =>
      match get_full_path fs ws_dir path with
      | some full => fs.pathExists full
      | none => false
  | none => false

/-- Model of Rust `str::starts_with` by character-list prefix. -/
def str_starts_with (s p : String) : Bool :=
  p.toList.isPrefixOf s.toList

/-- Helper of `str_contains`: is `sub` a prefix of some suffix of the
second list? -/
def str_contains_aux (sub : List Char) : List Char → Bool
  | [] => sub.isEmpty
  | c :: cs => sub.isPrefixOf (c :: cs) || str_contains_aux sub cs

/-- Model of Rust `str::contains` for a literal needle. -/
def str_contains (s sub : String) : Bool :=
  str_contains_aux sub.toList s.toList

/-- Model of Rust `str::to_ascii_lowercase` (used at lines 1140-1141);
`Char.toLower` lowercases exactly the ASCII range. -/
def asciiLowercase (s : String) : String :=
  String.mk (s.toList.map Char.toLower)

/-- Model of the location-validation step of
`parse_create_external_table` (lines 1115-1122): a location is accepted
when it starts with the special-cased remote scheme `s3://` or exists
relative to the resolved workspace root; otherwise the parse fails. -/
def check_location (fs : FileSystem) (scope_filename location : String) :
    Except String String :=
  if !(str_starts_with location "s3://") &&
      !(exists_full_path fs location scope_filename) then
    Except.error ("Missing external file '" ++ location ++ "'")
  else
    Except.ok location

/-- File compression type tags from
`datafusion_common::parsers::CompressionTypeVariant`. -/
inductive CompressionTypeVariant where
  | UNCOMPRESSED
  | GZIP
  | BZIP2
  | XZ
deriving DecidableEq, Repr

/-- The `CreateExternalTable` value (lines 214-236).  Column definitions
are opaque AST nodes, carried as rendered strings; the options map is
carried as an association list. -/
structure CreateExternalTable where
  name : String
  columns : List String
  file_type : String
  has_header : Bool
  delimiter : Char
  location : String
  table_partition_cols : List String
  if_not_exists : Bool
  file_compression_type : CompressionTypeVariant
  options : List (String × String)
deriving DecidableEq, Repr

/-- Result of the tail of `parse_create_external_table`:
`ok` pairs the statement with its meta and the updated registries,
`parserErr` is a recoverable `ParserError::ParserError`, and `fatalTodo`
models the `todo!` panic reachable through `with_meta`. -/
inductive CetOutcome where
  | ok (create : CreateExternalTable) (meta : StatementMeta) (regs : Registries)
  | parserErr (msg : String)
  | fatalTodo
deriving DecidableEq, Repr

/-- Model of the tail of `DFParser::parse_create_external_table`
(lines 1115-1150), taking the already-parsed clause results as inputs:
validate the location, build the `CreateExternalTable` value with
`qualify_name`, insert `<location lowercased>::<file_type lowercased>`
into the `LOCATIONS` registry, and build the `StatementMeta` through
`with_meta`. -/
def finish_create_external_table (fs : FileSystem) (scope : Scope)
    (regs : Registries) (if_not_exists : Bool) (table_name : String)
    (columns : List String) (file_type : String) (has_header : Bool)
    (delimiter : Char) (file_compression_type : CompressionTypeVariant)
    (table_partition_cols : List String) (options : List (String × String))
    (location : String) : CetOutcome :=
  match check_location fs scope.filename location with
  | Except.error msg => CetOutcome.parserErr msg
  | Except.ok _ =>
    let create : CreateExternalTable :=
      { name := qualify_name scope.catalog scope.schema table_name,
        columns := columns,
        file_type := file_type,
        has_header := has_header,
        delimiter := delimiter,
        location := location,
        table_partition_cols := table_partition_cols,
        if_not_exists := if_not_exists,
        file_compression_type := file_compression_type,
        options := options }
    let entry : String :=
      asciiLowercase location ++ "::" ++ asciiLowercase file_type
    let regs' : Registries :=
      { regs with locations := setInsert regs.locations entry }
    match with_meta scope (qualify_name scope.catalog scope.schema table_name) with
    | some meta => CetOutcome.ok create meta regs'
    | none => CetOutcome.fatalTodo

/-- Model of `DFParser::parse_delimiter` (lines 1214-1222): the literal
must have byte length exactly one (Rust `str::len` counts bytes), in which
case its first character is the delimiter. -/
def parse_delimiter (token : String) : Except String Char :=
  match token.utf8ByteSize, token.toList with
  | 1, c :: _ => Except.ok c
  | _, _ => Except.error "Delimiter must be a single char"

/-- Model of the delimiter clause of `parse_create_external_table`
(lines 1091-1095): with no `DELIMITER` keyword the delimiter defaults to
','; otherwise the literal goes through `parse_delimiter`. -/
def delimiter_clause (has_delimiter : Bool) (token : String) :
    Except String Char :=
  match has_delimiter with
  | true => parse_delimiter token
  | false => Except.ok ','

/-- One `USE` statement as seen by `parse_use` (lines 560-599):
`scopeCatalog` is the invoking parser's `self.catalog`, and `catalog`,
`schema`, `table` are the dotted identifier components parsed after the
`USE` keyword (missing components parse as `""`). -/
structure UseEvent where
  scopeCatalog : String
  catalog : String
  schema : String
  table : String
deriving DecidableEq, Repr

/-- Result of one `parse_use` invocation.  `skippedNoCatalog` and
`skippedVisited` both model `Ok(VecDeque::new())` — an empty statement
sequence returned without error; `missingFiles` models the
`ParserError::ParserError` for absent schema and table files;
`parseFile f cat sch tbl catPre schemaPre` models the recursive
`parse_sql_file` call on `f` with the new scope `(cat, sch, tbl)` and the
preamble `catPre ++ schemaPre` prepended to the file text. -/
inductive UseOutcome where
  | skippedNoCatalog
  | skippedVisited
  | missingFiles (err : String)
  | parseFile (filename catalog schema table : String)
      (catPre schemaPre : String)
deriving DecidableEq, Repr

/-- The candidate file chosen by `parse_use` (lines 601-627): the
table-scoped file `<catalog>/<schema>/<table>.sql` when it exists, else
the schema-scoped file `<catalog>/<schema>.sql` when it exists, else
`none`. -/
def resolvedFilename (fs : FileSystem) (e : UseEvent) : Option String :=
  let schema_filename := e.catalog ++ "/" ++ e.schema ++ ".sql"
  let table_filename :=
    e.catalog ++ "/" ++ e.schema ++ "/" ++ e.table ++ ".sql"
  if fs.isFile table_filename then some table_filename
  else if fs.isFile schema_filename then some schema_filename
  else none

/-- Dedup-and-preamble stage of `parse_use` (lines 628-666), entered once
a candidate file has been chosen: skip an already-visited file, otherwise
mark the file visited, emit a `CREATE DATABASE` preamble on the first
visit of the catalog and a `CREATE SCHEMA` preamble on the first visit of
the `catalog.schema` pair, and direct the recursive parse of the file
(with the table component of the new scope cleared unless the table file
was chosen). -/
def resolveUseFile (regs : Registries) (e : UseEvent) (is_table : Bool)
    (filename : String) : UseOutcome × Registries :=
  if filename ∈ regs.visitedFiles then
    (UseOutcome.skippedVisited, regs)
  else
    let regs1 : Registries :=
      { regs with visitedFiles := filename :: regs.visitedFiles }
    let created_catalog : String :=
      if e.catalog ∈ regs1.visitedCatalogs then ""
      else "CREATE DATABASE " ++ e.catalog ++ ";\n"
    let regs2 : Registries :=
      if e.catalog ∈ regs1.visitedCatalogs then regs1
      else { regs1 with visitedCatalogs := e.catalog :: regs1.visitedCatalogs }
    let schema_id : String := e.catalog ++ "." ++ e.schema
    let created_schema : String :=
      if schema_id ∈ regs2.visitedSchemas then ""
      else "CREATE SCHEMA " ++ e.catalog ++ "." ++ e.schema ++ ";\n"
    let regs3 : Registries :=
      if schema_id ∈ regs2.visitedSchemas then regs2
      else { regs2 with visitedSchemas := schema_id :: regs2.visitedSchemas }
    (UseOutcome.parseFile filename e.catalog e.schema
       (if is_table then e.table else "") created_catalog created_schema,
     regs3)

/-- Model of `DFParser::parse_use` (lines 560-671) as a transformer of
the process-wide registries: skip when the invoking parser has no
catalog, otherwise resolve the table-scoped or schema-scoped candidate
file and hand over to `resolveUseFile`; when neither candidate exists,
fail with the missing-files parser error (the source message carries a
trailing space). -/
def resolveUse (fs : FileSystem) (regs : Registries) (e : UseEvent) :
    UseOutcome × Registries :=
  if e.scopeCatalog = "" then
    (UseOutcome.skippedNoCatalog, regs)
  else
    let schema_filename := e.catalog ++ "/" ++ e.schema ++ ".sql"
    let table_filename :=
      e.catalog ++ "/" ++ e.schema ++ "/" ++ e.table ++ ".sql"
    if fs.isFile table_filename then
      resolveUseFile regs e true table_filename
    else if fs.isFile schema_filename then
      resolveUseFile regs e false schema_filename
    else
      (UseOutcome.missingFiles
         ("Missing schema file " ++ schema_filename ++ " or table file " ++
            table_filename ++ " "),
       regs)

/-- Chronological trace of all `parse_use` invocations of one process
(recursive invocations included: recursion is single-threaded, so the
invocations form one sequence), folding the registries through
`resolveUse` and recording each event with its outcome. -/
def runUses (fs : FileSystem) :
    List UseEvent → Registries → Registries × List (UseEvent × UseOutcome)
  | [], regs => (regs, [])
  | e :: es, regs =>
      let step := resolveUse fs regs e
      let rest := runUses fs es step.2
      (rest.1, (e, step.1) :: rest.2)

/-- Filename a trace entry directed to be parsed, if any. -/
def parsedFileOf (p : UseEvent × UseOutcome) : Option String :=
  match p.2 with
  | UseOutcome.parseFile f _ _ _ _ _ => some f
  | _ => none

/-- Catalog whose `CREATE DATABASE` preamble a trace entry emitted, if
any (a nonempty `catPre` component). -/
def dbCatalogOf (p : UseEvent × UseOutcome) : Option String :=
  match p.2 with
  | UseOutcome.parseFile _ _ _ _ catPre _ =>
      if catPre = "" then none else some p.1.catalog
  | _ => none

/-- Schema id (`catalog.schema`) whose `CREATE SCHEMA` preamble a trace
entry emitted, if any (a nonempty `schemaPre` component). -/
def schemaIdOf (p : UseEvent × UseOutcome) : Option String :=
  match p.2 with
  | UseOutcome.parseFile _ _ _ _ _ schemaPre =>
      if schemaPre = "" then none
      else some (p.1.catalog ++ "." ++ p.1.schema)
  | _ => none

/-- The `sqlparser::parser::ParserError` variants (messages carried as
already-rendered strings). -/
inductive ParserError where
  | parserError (msg : String)
  | tokenizerError (msg : String)
  | recursionLimitExceeded
deriving DecidableEq, Repr

/-- Outcome of `DFParser::parse_sql_file` (lines 529-558): statements on
success, or — the branch the code actually takes on a parse error — a
process-terminating `exit(1)` after logging `"{filename}: {err}"`.  The
`recoverable` constructor expresses what a structured returned error
would look like; `parse_sql_file` never produces it. -/
inductive FileParseResult (α : Type) where
  | ok (stmts : α)
  | recoverable (err : ParserError)
  | fatalExit (filename : String) (err : ParserError)
deriving DecidableEq, Repr

/-- Model of the error handling of `DFParser::parse_sql_file`
(lines 551-557): `parsed` is the result of `parse_statements` on the
file's text (preamble prepended); an error is logged with the filename
and the process exits with code 1. -/
def parse_sql_file_model {α : Type} (filename : String)
    (parsed : Except ParserError α) : FileParseResult α :=
  match parsed with
  | Except.ok res => FileParseResult.ok res
  | Except.error err => FileParseResult.fatalExit filename err

/-- Decides whether a `FileParseResult` is a recoverable returned error. -/
def isRecoverable {α : Type} : FileParseResult α → Bool
  | FileParseResult.recoverable _ => true
  | _ => false

/-- Model of the error wrapping of
`DFParser::parse_sql_with_dialect_and_scope` (lines 465-479): every
`ParserError` variant is rewrapped as
`ParserError::ParserError("'{filename}': {err}")`. -/
def wrap_with_filename (filename : String) (err : ParserError) : ParserError :=
  match err with
  | ParserError.parserError m =>
      ParserError.parserError ("'" ++ filename ++ "': " ++ m)
  | ParserError.tokenizerError m =>
      ParserError.parserError ("'" ++ filename ++ "': " ++ m)
  | ParserError.recursionLimitExceeded =>
      ParserError.parserError
        ("'" ++ filename ++ "': " ++ "Recursion Limit Exceeded!")

/-- Model of the error handling of
`DFParser::parse_sql_with_dialect_and_scope` (lines 448-480): a parse
error is returned to the caller wrapped with this entry point's
filename. -/
def parse_sql_with_scope_model {α : Type} (filename : String)
    (parsed : Except ParserError α) : Except ParserError α :=
  match parsed with
  | Except.ok res => Except.ok res
  | Except.error err => Except.error (wrap_with_filename filename err)

/-- Concrete filesystem where no path resolves: every oracle fails. -/
def fsNone : FileSystem :=
  { isFile := fun _ => false, findWorkspaceDir := fun _ => none,
    isAbsolute := fun _ => false, canonicalize := fun _ => none,
    pathExists := fun _ => false }

/-- Concrete filesystem where only the schema file `c/s.sql` exists. -/
def fsSchemaOnly : FileSystem :=
  { fsNone with isFile := fun s => s == "c/s.sql" }

/-- Concrete filesystem where only the table file `c/s/t.sql` exists. -/
def fsTableOnly : FileSystem :=
  { fsNone with isFile := fun s => s == "c/s/t.sql" }

/-- Concrete `USE c.s.t` event issued by a parser whose scope catalog is
`top`. -/
def useEventW : UseEvent :=
  { scopeCatalog := "top", catalog := "c", schema := "s", table := "t" }

/-- Concrete registries in which `c/s.sql`, catalog `c` and pair `c.s`
have already been visited. -/
def regsVisitedW : Registries :=
  { visitedFiles := ["c/s.sql"], visitedCatalogs := ["c"],
    visitedSchemas := ["c.s"], locations := [] }

/-- Concrete parser scope with catalog `cat` and schema `sch`. -/
def scopeCetW : Scope :=
  { catalog := "cat", schema := "sch", table := "", filename := "f.sql" }

/-- The `CreateExternalTable` value produced for
`CREATE EXTERNAL TABLE t STORED AS CSV LOCATION 's3://bucket/data.csv'`
under scope `scopeCetW`. -/
def cetCreateW : CreateExternalTable :=
  { name := "t", columns := [], file_type := "CSV", has_header := false,
    delimiter := ',', location := "s3://bucket/data.csv",
    table_partition_cols := [], if_not_exists := false,
    file_compression_type := CompressionTypeVariant.UNCOMPRESSED,
    options := [] }

/-- The `StatementMeta` produced alongside `cetCreateW`. -/
def cetMetaW : StatementMeta :=
  { catalog := "sdf", schema := "public", table := "t", line_number := 0,
    filename := "f.sql" }

/-- The registries after registering `cetCreateW`, starting from empty. -/
def cetRegsW : Registries :=
  { visitedFiles := [], visitedCatalogs := [], visitedSchemas := [],
    locations := ["s3://bucket/data.csv::csv"] }

/-- Every character list is at least as long in UTF-8 bytes as in
characters. -/
theorem length_le_utf8_go (l : List Char) :
    l.length ≤ String.utf8ByteSize.go l := by
  induction l with
  | nil => simp [String.utf8ByteSize.go]
  | cons c cs ih =>
      have hc := Char.utf8Size_pos c
      simp only [String.utf8ByteSize.go, List.length_cons]
      omega

/-- A string of UTF-8 byte length one has exactly one character. -/
theorem length_eq_one_of_utf8ByteSize_eq_one (s : String)
    (h : s.utf8ByteSize = 1) : s.length = 1 := by
  cases s with
  | mk data =>
      cases data with
      | nil => simp [String.utf8ByteSize, String.utf8ByteSize.go] at h
      | cons c cs =>
          cases cs with
          | nil => rfl
          | cons d ds =>
              exfalso
              have hc := Char.utf8Size_pos c
              have hd := Char.utf8Size_pos d
              have hds := length_le_utf8_go ds
              simp only [String.utf8ByteSize, String.utf8ByteSize.go] at h
              omega

/-- C7: for a `CREATE EXTERNAL TABLE` statement, an omitted `DELIMITER`
clause yields the delimiter ','; the literal `"|"` yields '|'; and a
literal that is not exactly one character long fails with the length
error "Delimiter must be a single char". -/
theorem delimiter_clause_spec :
    (∀ token, delimiter_clause false token = Except.ok ',') ∧
    (delimiter_clause true "|" = Except.ok '|') ∧
    (∀ token, token.length ≠ 1 →
       parse_delimiter token =
         Except.error "Delimiter must be a single char") := by
  refine ⟨fun token => rfl, rfl, fun token h => ?_⟩
  unfold parse_delimiter
  split
  · next heq _ =>
      exact absurd (length_eq_one_of_utf8ByteSize_eq_one token heq) h
  · rfl

/-- Witness for C7 at the concrete literals "x" (clause omitted), "|"
and the two-character literal "ab". -/
theorem delimiter_clause_spec_witness :
    delimiter_clause false "x" = Except.ok ',' ∧
    delimiter_clause true "|" = Except.ok '|' ∧
    parse_delimiter "ab" = Except.error "Delimiter must be a single char" :=
  ⟨delimiter_clause_spec.1 "x", delimiter_clause_spec.2.1,
   delimiter_clause_spec.2.2 "ab" (by decide)⟩

/-- C9: when the parser's scope has a non-empty filename, a top-level
SELECT/WITH/VALUES statement is rewritten into a standard CREATE TABLE
statement named `(scope catalog, scope schema, basename of the filename
with the ".sql" suffix stripped)` carrying the parsed query, and is never
a plain query statement; with an empty filename the same input stays a
plain query statement. -/
theorem query_in_file_becomes_create_table (scope : Scope) (q : String) :
    (scope.filename ≠ "" →
       parse_query_statement scope q =
         QueryStatement.createTable
           [scope.catalog, scope.schema,
            strip_extension (basename scope.filename) ".sql"] q) ∧
    (scope.filename = "" →
       parse_query_statement scope q = QueryStatement.query q) ∧
    (∀ name p, QueryStatement.createTable name p ≠ QueryStatement.query q) := by
  refine ⟨fun h => ?_, fun h => ?_, fun name p => ?_⟩
  · simp [parse_query_statement, h]
  · simp [parse_query_statement, h]
  · intro hc
    cases hc

/-- Witness for C9 at scope `("c", "s", "", "dir/models/orders.sql")` and
the opaque query body "SELECT 1". -/
theorem query_in_file_becomes_create_table_witness :
    parse_query_statement
        { catalog := "c", schema := "s", table := "",
          filename := "dir/models/orders.sql" } "SELECT 1" =
      QueryStatement.createTable
        ["c", "s", strip_extension (basename "dir/models/orders.sql") ".sql"]
        "SELECT 1" :=
  (query_in_file_becomes_create_table
      { catalog := "c", schema := "s", table := "",
        filename := "dir/models/orders.sql" } "SELECT 1").1 (by decide)

/-- C10: `qualify_name` and `qualify_object_name` are identity functions
on the name, ignoring the catalog and schema arguments; consequently the
`name` field of every `CreateExternalTable` produced by
`parse_create_external_table` is the object name exactly as written in
the source text. -/
theorem qualify_name_identity :
    (∀ c s n, qualify_name c s n = n) ∧
    (∀ c s (n : List String), qualify_object_name c s n = n) ∧
    (∀ fs scope regs ine tn cols ft hh d comp parts opts loc cr m rg,
       finish_create_external_table fs scope regs ine tn cols ft hh d comp
           parts opts loc = CetOutcome.ok cr m rg →
       cr.name = tn) := by
  refine ⟨fun c s n => rfl, fun c s n => rfl,
          fun fs scope regs ine tn cols ft hh d comp parts opts loc cr m rg h => ?_⟩
  unfold finish_create_external_table at h
  split at h
  · cases h
  · split at h
    · cases h
      rfl
    · cases h

/-- Witness for C10: the table named `t` at location `s3://bucket/data.csv`
keeps the name `t` unchanged by the scope `(cat, sch)`. -/
theorem qualify_name_identity_witness :
    qualify_name "cat" "sch" "t" = "t" ∧
    qualify_object_name "cat" "sch" ["t"] = ["t"] ∧
    cetCreateW.name = "t" :=
  ⟨qualify_name_identity.1 "cat" "sch" "t",
   qualify_name_identity.2.1 "cat" "sch" ["t"],
   qualify_name_identity.2.2 fsNone scopeCetW emptyRegs false "t" [] "CSV"
     false ',' CompressionTypeVariant.UNCOMPRESSED [] []
     "s3://bucket/data.csv" cetCreateW cetMetaW cetRegsW (by decide)⟩

/-- Counterexample to C6: a parse error inside the nested
`USE`-triggered `parse_sql_file` call on `nested.sql` terminates the
process (`exit(1)` after logging with the filename) instead of being
returned to the caller as a structured recoverable parser error. -/
theorem nested_error_exit_counterexample :
    @parse_sql_file_model (List String) "nested.sql"
        (Except.error (ParserError.parserError "boom")) =
      FileParseResult.fatalExit "nested.sql"
        (ParserError.parserError "boom") ∧
    isRecoverable
        (@parse_sql_file_model (List String) "nested.sql"
          (Except.error (ParserError.parserError "boom"))) = false :=
  ⟨rfl, rfl⟩

/-- C6 (amended): a parse error raised inside a nested `USE`-triggered
`parse_sql_file` call is logged with the nested filename and terminates
the process via `exit(1)`; only the top-level entry point
`parse_sql_with_dialect_and_scope` wraps an error with its filename as
`'<filename>': <message>` and returns it as a structured recoverable
parser error. -/
theorem nested_error_policy :
    (∀ (α : Type) (filename : String) (e : ParserError),
       @parse_sql_file_model α filename (Except.error e) =
         FileParseResult.fatalExit filename e) ∧
    (∀ (α : Type) (filename : String) (e : ParserError),
       @parse_sql_with_scope_model α filename (Except.error e) =
         Except.error (wrap_with_filename filename e)) ∧
    (∀ filename m,
       wrap_with_filename filename (ParserError.parserError m) =
         ParserError.parserError ("'" ++ filename ++ "': " ++ m)) ∧
    (∀ filename m,
       wrap_with_filename filename (ParserError.tokenizerError m) =
         ParserError.parserError ("'" ++ filename ++ "': " ++ m)) ∧
    (∀ filename,
       wrap_with_filename filename ParserError.recursionLimitExceeded =
         ParserError.parserError
           ("'" ++ filename ++ "': " ++ "Recursion Limit Exceeded!")) :=
  ⟨fun _ _ _ => rfl, fun _ _ _ => rfl, fun _ _ => rfl,
   fun _ _ => rfl, fun _ => rfl⟩

/-- Counterexample to C2: under the active scope `(mycat, mysch)` the
one-part name `t` resolves to the constant defaults `sdf` / `public`,
not to the scope's catalog and schema. -/
theorem with_meta_ignores_scope_counterexample :
    with_meta
        { catalog := "mycat", schema := "mysch", table := "",
          filename := "f.sql" } "t" =
      some { catalog := "sdf", schema := "public", table := "t",
             line_number := 0, filename := "f.sql" } ∧
    ("sdf" : String) ≠ "mycat" ∧ ("public" : String) ≠ "mysch" :=
  ⟨by decide, by decide, by decide⟩

/-- C2 (amended): a 1-part name yields
`StatementMeta (DEFAULT_CATALOG, DEFAULT_SCHEMA, name)` where the
defaults are the fixed process constants `sdf` and `public` regardless of
the active scope; a 2-part name yields `(DEFAULT_CATALOG, part0, part1)`;
a 3-part name yields `(part0, part1, part2)`; four or more parts hit the
fatal `todo!`; a zero-part object name yields the defaults with table
`"N.N"`. -/
theorem with_meta_qualified_arity (scope : Scope) :
    (∀ table a, splitDot table = [a] →
       with_meta scope table =
         some { catalog := DEFAULT_CATALOG, schema := DEFAULT_SCHEMA,
                table := a, line_number := 0, filename := scope.filename }) ∧
    (∀ table a b, splitDot table = [a, b] →
       with_meta scope table =
         some { catalog := DEFAULT_CATALOG, schema := a, table := b,
                line_number := 0, filename := scope.filename }) ∧
    (∀ table a b c, splitDot table = [a, b, c] →
       with_meta scope table =
         some { catalog := a, schema := b, table := c,
                line_number := 0, filename := scope.filename }) ∧
    (∀ table, 4 ≤ (splitDot table).length → with_meta scope table = none) ∧
    (∀ a, with_meta_for_object_name scope [a] =
       some { catalog := DEFAULT_CATALOG, schema := DEFAULT_SCHEMA,
              table := a, line_number := 0, filename := scope.filename }) ∧
    (∀ a b, with_meta_for_object_name scope [a, b] =
       some { catalog := DEFAULT_CATALOG, schema := a, table := b,
              line_number := 0, filename := scope.filename }) ∧
    (∀ a b c, with_meta_for_object_name scope [a, b, c] =
       some { catalog := a, schema := b, table := c,
              line_number := 0, filename := scope.filename }) ∧
    (∀ name : List String, 4 ≤ name.length →
       with_meta_for_object_name scope name = none) ∧
    (with_meta_for_object_name scope [] =
       some { catalog := DEFAULT_CATALOG, schema := DEFAULT_SCHEMA,
              table := "N.N", line_number := 0,
              filename := scope.filename }) := by
  refine ⟨fun table a h => ?_, fun table a b h => ?_, fun table a b c h => ?_,
          fun table h => ?_, fun a => rfl, fun a b => rfl, fun a b c => rfl,
          fun name h => ?_, rfl⟩
  · unfold with_meta
    rw [h]
  · unfold with_meta
    rw [h]
  · unfold with_meta
    rw [h]
  · unfold with_meta
    rcases hs : splitDot table with _ | ⟨a, _ | ⟨b, _ | ⟨c, _ | ⟨d, t⟩⟩⟩⟩ <;>
      rw [hs] at h <;> simp_all
  · rcases name with _ | ⟨a, _ | ⟨b, _ | ⟨c, _ | ⟨d, t⟩⟩⟩⟩ <;> simp_all <;> rfl

/-- Witness for C2 (amended) at the three-part name `x.y.z` under a
nontrivial scope. -/
theorem with_meta_qualified_arity_witness :
    with_meta
        { catalog := "mycat", schema := "mysch", table := "",
          filename := "g.sql" } "x.y.z" =
      some { catalog := "x", schema := "y", table := "z",
             line_number := 0, filename := "g.sql" } :=
  (with_meta_qualified_arity
      { catalog := "mycat", schema := "mysch", table := "",
        filename := "g.sql" }).2.2.1 "x.y.z" "x" "y" "z" (by decide)

/-- C8: the `LOCATION` literal of `CREATE EXTERNAL TABLE` is accepted iff
it starts with the special-cased remote scheme `s3://` or names a path
that exists relative to the resolved workspace root (workspace discovery
starting at the scope's filename); otherwise the parse fails with the
error "Missing external file '<location>'". -/
theorem location_validation (fs : FileSystem) (scope_filename location : String) :
    (check_location fs scope_filename location = Except.ok location ↔
       (str_starts_with location "s3://" = true ∨
        exists_full_path fs location scope_filename = true)) ∧
    (str_starts_with location "s3://" = false →
     exists_full_path fs location scope_filename = false →
       check_location fs scope_filename location =
         Except.error ("Missing external file '" ++ location ++ "'")) ∧
    (exists_full_path fs location scope_filename = true ↔
       ∃ ws_dir full, fs.findWorkspaceDir scope_filename = some ws_dir ∧
         get_full_path fs ws_dir location = some full ∧
         fs.pathExists full = true) := by
  refine ⟨?_, fun h1 h2 => ?_, ?_⟩
  · unfold check_location
    rcases hs : str_starts_with location "s3://" <;>
      rcases he : exists_full_path fs location scope_filename <;> simp
  · unfold check_location
    rw [h1, h2]
    rfl
  · unfold exists_full_path
    constructor
    · intro h
      rcases hw : fs.findWorkspaceDir scope_filename with _ | ws_dir
      · simp [hw] at h
      · simp only [hw] at h
        rcases hg : get_full_path fs ws_dir location with _ | full
        · simp [hg] at h
        · simp only [hg] at h
          exact ⟨ws_dir, full, rfl, hg, h⟩
    · rintro ⟨ws_dir, full, hw, hg, hp⟩
      simp only [hw, hg]
      exact hp

/-- Witness for C8: with no workspace root resolvable and a location that
is not an `s3://` URI, the parse fails with the missing-file error. -/
theorem location_validation_witness :
    check_location fsNone "f.sql" "data.csv" =
      Except.error ("Missing external file '" ++ "data.csv" ++ "'") :=
  (location_validation fsNone "f.sql" "data.csv").2.1 (by decide) (by decide)

/-- Counterexample to C5: the successfully parsed
`CREATE EXTERNAL TABLE t ... STORED AS CSV LOCATION 's3://bucket/data.csv'`
under scope `(cat, sch)` makes the location registry receive the single
element `"s3://bucket/data.csv::csv"` — the lowercased location paired
with the lowercased file type — which does not even contain the fully
qualified name `cat.sch.t` (nor is any glob normalization applied). -/
theorem locations_registry_counterexample :
    finish_create_external_table fsNone scopeCetW emptyRegs false "t" []
        "CSV" false ',' CompressionTypeVariant.UNCOMPRESSED [] []
        "s3://bucket/data.csv" =
      CetOutcome.ok cetCreateW cetMetaW cetRegsW ∧
    cetRegsW.locations = ["s3://bucket/data.csv::csv"] ∧
    str_contains "s3://bucket/data.csv::csv" "cat.sch.t" = false ∧
    str_contains "s3://bucket/data.csv::csv" "cat.sch" = false :=
  ⟨by decide, by decide, by decide, by decide⟩

/-- C5 (amended): on every successful `CREATE EXTERNAL TABLE` parse the
location registry — a process-wide set of strings — receives the element
`<location lowercased>::<file_type lowercased>`; inserting an element
already present leaves the registry unchanged (no duplicate entries). -/
theorem locations_registry_entry (fs : FileSystem) (scope : Scope)
    (regs : Registries) (ine : Bool) (tn : String) (cols : List String)
    (ft : String) (hh : Bool) (d : Char) (comp : CompressionTypeVariant)
    (parts : List String) (opts : List (String × String)) (loc : String)
    (cr : CreateExternalTable) (m : StatementMeta) (rg : Registries)
    (h : finish_create_external_table fs scope regs ine tn cols ft hh d comp
           parts opts loc = CetOutcome.ok cr m rg) :
    rg.locations =
      setInsert regs.locations
        (asciiLowercase loc ++ "::" ++ asciiLowercase ft) ∧
    cr.location = loc ∧
    (∀ (l : List String) (x : String),
       setInsert (setInsert l x) x = setInsert l x) := by
  refine ⟨?_, ?_, fun l x => ?_⟩
  · unfold finish_create_external_table at h
    split at h
    · cases h
    · split at h
      · cases h
        rfl
      · cases h
  · unfold finish_create_external_table at h
    split at h
    · cases h
    · split at h
      · cases h
        rfl
      · cases h
  · unfold setInsert
    by_cases hx : x ∈ l
    · simp [hx]
    · simp [hx]

/-- Witness for C5 (amended) at the concrete parse of
`locations_registry_counterexample`. -/
theorem locations_registry_entry_witness :
    cetRegsW.locations =
      setInsert emptyRegs.locations
        (asciiLowercase "s3://bucket/data.csv" ++ "::" ++
          asciiLowercase "CSV") ∧
    cetCreateW.location = "s3://bucket/data.csv" ∧
    (∀ (l : List String) (x : String),
       setInsert (setInsert l x) x = setInsert l x) :=
  locations_registry_entry fsNone scopeCetW emptyRegs false "t" [] "CSV"
    false ',' CompressionTypeVariant.UNCOMPRESSED [] []
    "s3://bucket/data.csv" cetCreateW cetMetaW cetRegsW (by decide)

/-- A `CREATE DATABASE` preamble line is never the empty string. -/
theorem create_database_preamble_ne (c : String) :
    "CREATE DATABASE " ++ c ++ ";\n" ≠ "" := by
  intro h
  have hl := congrArg String.length h
  simp only [String.length_append] at hl
  have h16 : ("CREATE DATABASE " : String).length = 16 := rfl
  have h2 : (";\n" : String).length = 2 := rfl
  have h0 : ("" : String).length = 0 := rfl
  omega

/-- A `CREATE SCHEMA` preamble line is never the empty string. -/
theorem create_schema_preamble_ne (c s : String) :
    "CREATE SCHEMA " ++ c ++ "." ++ s ++ ";\n" ≠ "" := by
  intro h
  have hl := congrArg String.length h
  simp only [String.length_append] at hl
  have h14 : ("CREATE SCHEMA " : String).length = 14 := rfl
  have h1 : ("." : String).length = 1 := rfl
  have h2 : (";\n" : String).length = 2 := rfl
  have h0 : ("" : String).length = 0 := rfl
  omega

/-- Applying `resolveUseFile` to an already-visited filename returns the empty
sequence and leaves the registries unchanged. -/
theorem resolveUseFile_visited (regs : Registries) (e : UseEvent) (b : Bool)
    (f : String) (h : f ∈ regs.visitedFiles) :
    resolveUseFile regs e b f = (UseOutcome.skippedVisited, regs) := by
  simp [resolveUseFile, h]

/-- Full characterization of `resolveUseFile` on a fresh filename. -/
theorem resolveUseFile_new (regs : Registries) (e : UseEvent) (b : Bool)
    (f : String) (h : f ∉ regs.visitedFiles) :
    resolveUseFile regs e b f =
      (UseOutcome.parseFile f e.catalog e.schema (if b then e.table else "")
         (if e.catalog ∈ regs.visitedCatalogs then ""
          else "CREATE DATABASE " ++ e.catalog ++ ";\n")
         (if e.catalog ++ "." ++ e.schema ∈ regs.visitedSchemas then ""
          else "CREATE SCHEMA " ++ e.catalog ++ "." ++ e.schema ++ ";\n"),
       { visitedFiles := f :: regs.visitedFiles,
         visitedCatalogs :=
           if e.catalog ∈ regs.visitedCatalogs then regs.visitedCatalogs
           else e.catalog :: regs.visitedCatalogs,
         visitedSchemas :=
           if e.catalog ++ "." ++ e.schema ∈ regs.visitedSchemas then
             regs.visitedSchemas
           else (e.catalog ++ "." ++ e.schema) :: regs.visitedSchemas,
         locations := regs.locations }) := by
  by_cases hc : e.catalog ∈ regs.visitedCatalogs <;>
    by_cases hs : e.catalog ++ "." ++ e.schema ∈ regs.visitedSchemas <;>
      simp [resolveUseFile, h, hc, hs]

/-- Per-invocation characterization of `resolveUse`: either the
registries are untouched and nothing is parsed or emitted, or a fresh
file is parsed, consed onto the visited-files set, with the catalog and
schema-pair preambles emitted exactly when their registry entries are
fresh, in which case they are consed on as well. -/
theorem resolveUse_step (fs : FileSystem) (regs : Registries) (e : UseEvent) :
    ((resolveUse fs regs e).2 = regs ∧
     parsedFileOf (e, (resolveUse fs regs e).1) = none ∧
     dbCatalogOf (e, (resolveUse fs regs e).1) = none ∧
     schemaIdOf (e, (resolveUse fs regs e).1) = none) ∨
    (∃ f,
      parsedFileOf (e, (resolveUse fs regs e).1) = some f ∧
      f ∉ regs.visitedFiles ∧
      (resolveUse fs regs e).2.visitedFiles = f :: regs.visitedFiles ∧
      (resolveUse fs regs e).2.locations = regs.locations ∧
      ((dbCatalogOf (e, (resolveUse fs regs e).1) = none ∧
        (resolveUse fs regs e).2.visitedCatalogs = regs.visitedCatalogs) ∨
       (dbCatalogOf (e, (resolveUse fs regs e).1) = some e.catalog ∧
        e.catalog ∉ regs.visitedCatalogs ∧
        (resolveUse fs regs e).2.visitedCatalogs =
          e.catalog :: regs.visitedCatalogs)) ∧
      ((schemaIdOf (e, (resolveUse fs regs e).1) = none ∧
        (resolveUse fs regs e).2.visitedSchemas = regs.visitedSchemas) ∨
       (schemaIdOf (e, (resolveUse fs regs e).1) =
          some (e.catalog ++ "." ++ e.schema) ∧
        (e.catalog ++ "." ++ e.schema) ∉ regs.visitedSchemas ∧
        (resolveUse fs regs e).2.visitedSchemas =
          (e.catalog ++ "." ++ e.schema) :: regs.visitedSchemas))) := by
  by_cases h0 : e.scopeCatalog = ""
  · left
    simp [resolveUse, h0, parsedFileOf, dbCatalogOf, schemaIdOf]
  · have hbranch : ∀ (b : Bool) (f : String),
        resolveUse fs regs e = resolveUseFile regs e b f →
        ((resolveUse fs regs e).2 = regs ∧
         parsedFileOf (e, (resolveUse fs regs e).1) = none ∧
         dbCatalogOf (e, (resolveUse fs regs e).1) = none ∧
         schemaIdOf (e, (resolveUse fs regs e).1) = none) ∨
        (∃ f',
          parsedFileOf (e, (resolveUse fs regs e).1) = some f' ∧
          f' ∉ regs.visitedFiles ∧
          (resolveUse fs regs e).2.visitedFiles = f' :: regs.visitedFiles ∧
          (resolveUse fs regs e).2.locations = regs.locations ∧
          ((dbCatalogOf (e, (resolveUse fs regs e).1) = none ∧
            (resolveUse fs regs e).2.visitedCatalogs = regs.visitedCatalogs) ∨
           (dbCatalogOf (e, (resolveUse fs regs e).1) = some e.catalog ∧
            e.catalog ∉ regs.visitedCatalogs ∧
            (resolveUse fs regs e).2.visitedCatalogs =
              e.catalog :: regs.visitedCatalogs)) ∧
          ((schemaIdOf (e, (resolveUse fs regs e).1) = none ∧
            (resolveUse fs regs e).2.visitedSchemas = regs.visitedSchemas) ∨
           (schemaIdOf (e, (resolveUse fs regs e).1) =
              some (e.catalog ++ "." ++ e.schema) ∧
            (e.catalog ++ "." ++ e.schema) ∉ regs.visitedSchemas ∧
            (resolveUse fs regs e).2.visitedSchemas =
              (e.catalog ++ "." ++ e.schema) :: regs.visitedSchemas))) := by
      intro b f hf
      by_cases hv : f ∈ regs.visitedFiles
      · left
        rw [hf, resolveUseFile_visited regs e b f hv]
        simp [parsedFileOf, dbCatalogOf, schemaIdOf]
      · right
        refine ⟨f, ?_⟩
        rw [hf, resolveUseFile_new regs e b f hv]
        refine ⟨by simp [parsedFileOf], hv, rfl, rfl, ?_, ?_⟩
        · by_cases hc : e.catalog ∈ regs.visitedCatalogs
          · left
            simp [dbCatalogOf, hc]
          · right
            simp [dbCatalogOf, hc, create_database_preamble_ne]
        · by_cases hs : e.catalog ++ "." ++ e.schema ∈ regs.visitedSchemas
          · left
            simp [schemaIdOf, hs]
          · right
            simp [schemaIdOf, hs, create_schema_preamble_ne]
    by_cases ht : fs.isFile
        (e.catalog ++ "/" ++ e.schema ++ "/" ++ e.table ++ ".sql")
    · exact hbranch true
        (e.catalog ++ "/" ++ e.schema ++ "/" ++ e.table ++ ".sql")
        (by simp [resolveUse, h0, ht])
    · by_cases hsf : fs.isFile (e.catalog ++ "/" ++ e.schema ++ ".sql")
      · exact hbranch false (e.catalog ++ "/" ++ e.schema ++ ".sql")
          (by simp [resolveUse, h0, ht, hsf])
      · left
        simp [resolveUse, h0, ht, hsf, parsedFileOf, dbCatalogOf, schemaIdOf]

/-- Generic dedup invariant over a trace of `parse_use` invocations: for
any registry view `V` and trace extraction `g` related by a step property
of `resolveUse` (each invocation either leaves `V` unchanged and extracts
nothing, or extracts a fresh `x` and conses it onto `V`), the extracted
elements of a trace are pairwise distinct, fresh relative to the initial
view, and `V` grows monotonically, preserving duplicate freedom. -/
theorem runUses_trace_inv (fs : FileSystem) (V : Registries → List String)
    (g : UseEvent × UseOutcome → Option String)
    (hstep : ∀ regs e,
      (∃ x, g (e, (resolveUse fs regs e).1) = some x ∧ x ∉ V regs ∧
            V (resolveUse fs regs e).2 = x :: V regs) ∨
      (g (e, (resolveUse fs regs e).1) = none ∧
       V (resolveUse fs regs e).2 = V regs)) :
    ∀ (es : List UseEvent) (regs : Registries),
      ((runUses fs es regs).2.filterMap g).Nodup ∧
      (∀ x ∈ (runUses fs es regs).2.filterMap g, x ∉ V regs) ∧
      (∀ x ∈ V regs, x ∈ V (runUses fs es regs).1) ∧
      ((V regs).Nodup → (V (runUses fs es regs).1).Nodup) := by
  intro es
  induction es with
  | nil =>
      intro regs
      simp [runUses]
  | cons e es ih =>
      intro regs
      obtain ⟨ih1, ih2, ih3, ih4⟩ := ih (resolveUse fs regs e).2
      have hrw : runUses fs (e :: es) regs =
          ((runUses fs es (resolveUse fs regs e).2).1,
           (e, (resolveUse fs regs e).1) ::
             (runUses fs es (resolveUse fs regs e).2).2) := rfl
      rw [hrw]
      rcases hstep regs e with ⟨x, hg, hx, hV⟩ | ⟨hg, hV⟩
      · refine ⟨?_, ?_, ?_, ?_⟩
        · simp only [List.filterMap_cons, hg, List.nodup_cons]
          refine ⟨fun hmem => ?_, ih1⟩
          have hnot := ih2 x hmem
          rw [hV] at hnot
          exact hnot (List.mem_cons_self x (V regs))
        · intro y hy
          simp only [List.filterMap_cons, hg, List.mem_cons] at hy
          rcases hy with rfl | hy
          · exact hx
          · have hnot := ih2 y hy
            rw [hV] at hnot
            intro hcon
            exact hnot (List.mem_cons_of_mem x hcon)
        · intro y hy
          apply ih3
          rw [hV]
          exact List.mem_cons_of_mem x hy
        · intro hnd
          apply ih4
          rw [hV]
          exact List.nodup_cons.mpr ⟨hx, hnd⟩
      · refine ⟨?_, ?_, ?_, ?_⟩
        · simp only [List.filterMap_cons, hg]
          exact ih1
        · intro y hy
          simp only [List.filterMap_cons, hg] at hy
          have hnot := ih2 y hy
          rw [hV] at hnot
          exact hnot
        · intro y hy
          apply ih3
          rw [hV]
          exact hy
        · intro hnd
          apply ih4
          rw [hV]
          exact hnd

/-- C1: a `USE` whose resolved filename is already in the process-wide
visited-files set returns the empty statement sequence without error and
without directing a re-parse; over any trace of `parse_use` invocations
no filename is ever directed to be parsed twice; and starting from a
duplicate-free visited-files set (in particular the empty one at process
start) the set stays duplicate-free, so each filename enters it at most
once. -/
theorem use_visited_file_skip_and_once (fs : FileSystem) :
    (∀ (regs : Registries) (e : UseEvent) (f : String),
       e.scopeCatalog ≠ "" → resolvedFilename fs e = some f →
       f ∈ regs.visitedFiles →
       resolveUse fs regs e = (UseOutcome.skippedVisited, regs)) ∧
    (∀ (es : List UseEvent) (regs0 : Registries),
       ((runUses fs es regs0).2.filterMap parsedFileOf).Nodup) ∧
    (∀ (es : List UseEvent) (regs0 : Registries),
       regs0.visitedFiles.Nodup →
       ((runUses fs es regs0).1.visitedFiles).Nodup) := by
  have hstep : ∀ regs e,
      (∃ x, parsedFileOf (e, (resolveUse fs regs e).1) = some x ∧
            x ∉ regs.visitedFiles ∧
            (resolveUse fs regs e).2.visitedFiles = x :: regs.visitedFiles) ∨
      (parsedFileOf (e, (resolveUse fs regs e).1) = none ∧
       (resolveUse fs regs e).2.visitedFiles = regs.visitedFiles) := by
    intro regs e
    rcases resolveUse_step fs regs e with ⟨hr, hp, _, _⟩ | ⟨f, hp, hf, hv, _⟩
    · right
      exact ⟨hp, by rw [hr]⟩
    · left
      exact ⟨f, hp, hf, hv⟩
  have hinv := runUses_trace_inv fs (fun r => r.visitedFiles) parsedFileOf hstep
  refine ⟨?_, ?_, ?_⟩
  · intro regs e f h0 hr hv
    unfold resolveUse
    rw [if_neg h0]
    unfold resolvedFilename at hr
    by_cases ht : fs.isFile
        (e.catalog ++ "/" ++ e.schema ++ "/" ++ e.table ++ ".sql")
    · simp only [ht, if_true, if_pos] at hr ⊢
      cases hr
      exact resolveUseFile_visited regs e true _ hv
    · simp only [ht, if_false, Bool.false_eq_true] at hr ⊢
      by_cases hs : fs.isFile (e.catalog ++ "/" ++ e.schema ++ ".sql")
      · simp only [hs, if_true, if_pos] at hr ⊢
        cases hr
        exact resolveUseFile_visited regs e false _ hv
      · simp only [hs, Bool.false_eq_true, if_false] at hr
        cases hr
  · intro es regs0
    exact (hinv es regs0).1
  · intro es regs0 hnd
    exact (hinv es regs0).2.2.2 hnd

/-- Witness for C1 at the visited schema file `c/s.sql`. -/
theorem use_visited_file_skip_and_once_witness :
    resolveUse fsSchemaOnly regsVisitedW useEventW =
      (UseOutcome.skippedVisited, regsVisitedW) :=
  (use_visited_file_skip_and_once fsSchemaOnly).1 regsVisitedW useEventW
    "c/s.sql" (by decide) (by decide) (by decide)

/-- C3: for a `USE catalog.schema.table` under a non-empty scope catalog,
the resolver computes the table-scoped candidate
`<catalog>/<schema>/<table>.sql` and the schema-scoped candidate
`<catalog>/<schema>.sql`, prefers the table-scoped file when it exists
(keeping the table in the new scope), otherwise takes the schema-scoped
file with the table component of the new scope cleared, and when neither
exists fails with an error whose text is
"Missing schema file <schema_file> or table file <table_file>" followed
by a trailing space. -/
theorem use_candidate_file_resolution (fs : FileSystem) (regs : Registries)
    (e : UseEvent) (h0 : e.scopeCatalog ≠ "") :
    (fs.isFile (e.catalog ++ "/" ++ e.schema ++ "/" ++ e.table ++ ".sql") =
        true →
       resolvedFilename fs e =
         some (e.catalog ++ "/" ++ e.schema ++ "/" ++ e.table ++ ".sql")) ∧
    (fs.isFile (e.catalog ++ "/" ++ e.schema ++ "/" ++ e.table ++ ".sql") =
        true →
     (e.catalog ++ "/" ++ e.schema ++ "/" ++ e.table ++ ".sql") ∉
        regs.visitedFiles →
       ∃ cp sp regs', resolveUse fs regs e =
         (UseOutcome.parseFile
            (e.catalog ++ "/" ++ e.schema ++ "/" ++ e.table ++ ".sql")
            e.catalog e.schema e.table cp sp, regs')) ∧
    (fs.isFile (e.catalog ++ "/" ++ e.schema ++ "/" ++ e.table ++ ".sql") =
        false →
     fs.isFile (e.catalog ++ "/" ++ e.schema ++ ".sql") = true →
       resolvedFilename fs e =
         some (e.catalog ++ "/" ++ e.schema ++ ".sql")) ∧
    (fs.isFile (e.catalog ++ "/" ++ e.schema ++ "/" ++ e.table ++ ".sql") =
        false →
     fs.isFile (e.catalog ++ "/" ++ e.schema ++ ".sql") = true →
     (e.catalog ++ "/" ++ e.schema ++ ".sql") ∉ regs.visitedFiles →
       ∃ cp sp regs', resolveUse fs regs e =
         (UseOutcome.parseFile (e.catalog ++ "/" ++ e.schema ++ ".sql")
            e.catalog e.schema "" cp sp, regs')) ∧
    (fs.isFile (e.catalog ++ "/" ++ e.schema ++ "/" ++ e.table ++ ".sql") =
        false →
     fs.isFile (e.catalog ++ "/" ++ e.schema ++ ".sql") = false →
       resolveUse fs regs e =
         (UseOutcome.missingFiles
            ("Missing schema file " ++ (e.catalog ++ "/" ++ e.schema ++ ".sql")
              ++ " or table file " ++
              (e.catalog ++ "/" ++ e.schema ++ "/" ++ e.table ++ ".sql")
              ++ " "),
          regs)) := by
  refine ⟨fun ht => ?_, fun ht hv => ?_, fun ht hs => ?_, fun ht hs hv => ?_,
          fun ht hs => ?_⟩
  · simp [resolvedFilename, ht]
  · have hre : resolveUse fs regs e =
        resolveUseFile regs e true
          (e.catalog ++ "/" ++ e.schema ++ "/" ++ e.table ++ ".sql") := by
      simp [resolveUse, h0, ht]
    rw [hre, resolveUseFile_new regs e true _ hv]
    exact ⟨_, _, _, rfl⟩
  · simp [resolvedFilename, ht, hs]
  · have hre : resolveUse fs regs e =
        resolveUseFile regs e false
          (e.catalog ++ "/" ++ e.schema ++ ".sql") := by
      simp [resolveUse, h0, ht, hs]
    rw [hre, resolveUseFile_new regs e false _ hv]
    exact ⟨_, _, _, rfl⟩
  · simp [resolveUse, h0, ht, hs]

/-- Witness for C3: with only the table file `c/s/t.sql` on disk and
fresh registries, `USE c.s.t` resolves to the table-scoped file and keeps
the table in the new scope. -/
theorem use_candidate_file_resolution_witness :
    ∃ cp sp regs', resolveUse fsTableOnly emptyRegs useEventW =
      (UseOutcome.parseFile
         (useEventW.catalog ++ "/" ++ useEventW.schema ++ "/" ++
            useEventW.table ++ ".sql")
         useEventW.catalog useEventW.schema useEventW.table cp sp, regs') :=
  (use_candidate_file_resolution fsTableOnly emptyRegs useEventW
      (by decide)).2.1 (by decide) (by decide)

/-- Preamble characterization of a `resolveUseFile` call that directs a
parse: each preamble component is either empty or the single synthetic
statement for a catalog (resp. catalog.schema pair) not yet visited. -/
theorem resolveUseFile_parse_preambles (regs : Registries) (e : UseEvent)
    (b : Bool) (fn f cat sch tbl cp sp : String) (regs' : Registries)
    (h : resolveUseFile regs e b fn =
      (UseOutcome.parseFile f cat sch tbl cp sp, regs')) :
    (cp = "" ∨ (cp = "CREATE DATABASE " ++ e.catalog ++ ";\n" ∧
                e.catalog ∉ regs.visitedCatalogs)) ∧
    (sp = "" ∨ (sp = "CREATE SCHEMA " ++ e.catalog ++ "." ++ e.schema ++ ";\n" ∧
                (e.catalog ++ "." ++ e.schema) ∉ regs.visitedSchemas)) := by
  by_cases hv : fn ∈ regs.visitedFiles
  · rw [resolveUseFile_visited regs e b fn hv] at h
    simp at h
  · rw [resolveUseFile_new regs e b fn hv] at h
    injection h with h1 h2
    injection h1 with hf hcat hsch htbl hcp hsp
    constructor
    · by_cases hc : e.catalog ∈ regs.visitedCatalogs
      · left
        rw [← hcp]
        simp [hc]
      · right
        rw [← hcp]
        simp [hc]
    · by_cases hs : e.catalog ++ "." ++ e.schema ∈ regs.visitedSchemas
      · left
        rw [← hsp]
        simp [hs]
      · right
        rw [← hsp]
        simp [hs]

/-- C4: over any trace of `parse_use` invocations, a `CREATE DATABASE
<catalog>;` preamble is emitted at most once per catalog (on the first
visit of that catalog) and a `CREATE SCHEMA <catalog>.<schema>;` preamble
at most once per catalog.schema pair (on the first visit of that pair);
every parse directive carries at most one preamble statement of each
kind. -/
theorem use_preamble_emitted_once (fs : FileSystem) :
    (∀ (regs : Registries) (e : UseEvent) (f cat sch tbl cp sp : String)
        (regs' : Registries),
       resolveUse fs regs e =
         (UseOutcome.parseFile f cat sch tbl cp sp, regs') →
       (cp = "" ∨ (cp = "CREATE DATABASE " ++ e.catalog ++ ";\n" ∧
                   e.catalog ∉ regs.visitedCatalogs)) ∧
       (sp = "" ∨
        (sp = "CREATE SCHEMA " ++ e.catalog ++ "." ++ e.schema ++ ";\n" ∧
         (e.catalog ++ "." ++ e.schema) ∉ regs.visitedSchemas))) ∧
    (∀ (es : List UseEvent) (regs0 : Registries),
       ((runUses fs es regs0).2.filterMap dbCatalogOf).Nodup) ∧
    (∀ (es : List UseEvent) (regs0 : Registries),
       ((runUses fs es regs0).2.filterMap schemaIdOf).Nodup) := by
  have hstepC : ∀ regs e,
      (∃ x, dbCatalogOf (e, (resolveUse fs regs e).1) = some x ∧
            x ∉ regs.visitedCatalogs ∧
            (resolveUse fs regs e).2.visitedCatalogs =
              x :: regs.visitedCatalogs) ∨
      (dbCatalogOf (e, (resolveUse fs regs e).1) = none ∧
       (resolveUse fs regs e).2.visitedCatalogs = regs.visitedCatalogs) := by
    intro regs e
    rcases resolveUse_step fs regs e with ⟨hr, _, hd, _⟩ |
      ⟨f, _, _, _, _, hdb, _⟩
    · right
      exact ⟨hd, by rw [hr]⟩
    · rcases hdb with ⟨hd, hV⟩ | ⟨hd, hfresh, hV⟩
      · right
        exact ⟨hd, hV⟩
      · left
        exact ⟨e.catalog, hd, hfresh, hV⟩
  have hstepS : ∀ regs e,
      (∃ x, schemaIdOf (e, (resolveUse fs regs e).1) = some x ∧
            x ∉ regs.visitedSchemas ∧
            (resolveUse fs regs e).2.visitedSchemas =
              x :: regs.visitedSchemas) ∨
      (schemaIdOf (e, (resolveUse fs regs e).1) = none ∧
       (resolveUse fs regs e).2.visitedSchemas = regs.visitedSchemas) := by
    intro regs e
    rcases resolveUse_step fs regs e with ⟨hr, _, _, hd⟩ |
      ⟨f, _, _, _, _, _, hsc⟩
    · right
      exact ⟨hd, by rw [hr]⟩
    · rcases hsc with ⟨hd, hV⟩ | ⟨hd, hfresh, hV⟩
      · right
        exact ⟨hd, hV⟩
      · left
        exact ⟨e.catalog ++ "." ++ e.schema, hd, hfresh, hV⟩
  refine ⟨?_, ?_, ?_⟩
  · intro regs e f cat sch tbl cp sp regs' h
    by_cases h0 : e.scopeCatalog = ""
    · simp [resolveUse, h0] at h
    · by_cases ht : fs.isFile
          (e.catalog ++ "/" ++ e.schema ++ "/" ++ e.table ++ ".sql")
      · have hre : resolveUse fs regs e = resolveUseFile regs e true
            (e.catalog ++ "/" ++ e.schema ++ "/" ++ e.table ++ ".sql") := by
          simp [resolveUse, h0, ht]
        rw [hre] at h
        exact resolveUseFile_parse_preambles regs e true _ f cat sch tbl
          cp sp regs' h
      · by_cases hsf : fs.isFile (e.catalog ++ "/" ++ e.schema ++ ".sql")
        · have hre : resolveUse fs regs e = resolveUseFile regs e false
              (e.catalog ++ "/" ++ e.schema ++ ".sql") := by
            simp [resolveUse, h0, ht, hsf]
          rw [hre] at h
          exact resolveUseFile_parse_preambles regs e false _ f cat sch tbl
            cp sp regs' h
        · have hre : resolveUse fs regs e =
              (UseOutcome.missingFiles
                 ("Missing schema file " ++
                    (e.catalog ++ "/" ++ e.schema ++ ".sql") ++
                    " or table file " ++
                    (e.catalog ++ "/" ++ e.schema ++ "/" ++ e.table ++ ".sql")
                    ++ " "),
               regs) := by
            simp [resolveUse, h0, ht, hsf]
          rw [hre] at h
          simp at h
  · intro es regs0
    exact (runUses_trace_inv fs (fun r => r.visitedCatalogs) dbCatalogOf
      hstepC es regs0).1
  · intro es regs0
    exact (runUses_trace_inv fs (fun r => r.visitedSchemas) schemaIdOf
      hstepS es regs0).1

/-- Witness for C4: the first `USE c.s.t` resolving the fresh schema file
`c/s.sql` emits exactly the `CREATE DATABASE c;` and `CREATE SCHEMA c.s;`
preambles. -/
theorem use_preamble_emitted_once_witness :
    ("CREATE DATABASE c;\n" = "" ∨
     ("CREATE DATABASE c;\n" =
        "CREATE DATABASE " ++ useEventW.catalog ++ ";\n" ∧
      useEventW.catalog ∉ emptyRegs.visitedCatalogs)) ∧
    ("CREATE SCHEMA c.s;\n" = "" ∨
     ("CREATE SCHEMA c.s;\n" =
        "CREATE SCHEMA " ++ useEventW.catalog ++ "." ++ useEventW.schema ++
          ";\n" ∧
      (useEventW.catalog ++ "." ++ useEventW.schema) ∉
        emptyRegs.visitedSchemas)) :=
  (use_preamble_emitted_once fsSchemaOnly).1 emptyRegs useEventW "c/s.sql"
    "c" "s" "" "CREATE DATABASE c;\n" "CREATE SCHEMA c.s;\n" regsVisitedW
    (by decide)
